import Mathlib

/-!
Shallow embedding of the conversation-lifecycle driver in `src/main.py`
(Slack ↔ Databricks Genie bridge) and proofs about its poller,
orchestrator, attachment fetch and result formatter.

Remote I/O is modelled by oracles: the status poll endpoint is a function
from the attempt index to the fetch outcome, and the attachment
query-result endpoint is a function from the (optional) attachment id to
its outcome.  Python exceptions raised by `poll_genie_message` are
modelled as explicit `PollResult` values; the `try/except` in
`call_genie_api` is the match on those values.  Python `time.sleep` calls
and HTTP GETs are recorded as events so that claims about call counts and
sleeping can be stated.
-/

namespace SlackGenie

/-- Truthiness of a Python value modelled as `Option String`:
`None` and the empty string are falsy, any other string truthy. -/
def truthyStr : Option String → Bool
  | none => false
  | some s => s ≠ ""

/-- One attachment object of a status response; `attachment_id` may be
absent (`attachments[0].get('attachment_id')` then yields `None`). -/
structure Attachment where
  attachment_id : Option String
deriving DecidableEq, Repr

/-- Parsed JSON body of one status response
(`message_data` in `poll_genie_message` / `call_genie_api`).
`error_message` models the nested `message_data.get('error', {}).get('message', ...)`
access: it is `some m` exactly when the response carries `error.message`. -/
structure MessageData where
  status : Option String
  content : Option String
  attachments : List Attachment
  error_message : Option String
deriving DecidableEq, Repr

/-- Outcome of one HTTP GET of the status endpoint: a parsed JSON body, or
a `requests.exceptions.RequestException` carrying a message. -/
inductive FetchOutcome where
  | ok (md : MessageData)
  | err (e : String)
deriving DecidableEq, Repr

/-- Whether the fetch produced a response (no transport error). -/
def FetchOutcome.isOk : FetchOutcome → Bool
  | .ok _ => true
  | .err _ => false

/-- The `status` field of the fetched body, `none` on transport error. -/
def FetchOutcome.statusOf : FetchOutcome → Option String
  | .ok md => md.status
  | .err _ => none

/-- Statuses `poll_genie_message` treats as terminal (line 181). -/
def terminalStatuses : List String := ["COMPLETED", "FAILED", "CANCELLED"]

/-- Statuses `poll_genie_message` treats as in-progress (line 185). -/
def inProgressStatuses : List String :=
  ["IN_PROGRESS", "PENDING", "FILTERING_CONTEXT", "EXECUTING_QUERY",
   "ASKING_AI", "PENDING_WAREHOUSE"]

/-- Python `status in [...]` where `status` may be `None`
(`None in [...]` is `False` for these lists). -/
def statusIn (s : Option String) (l : List String) : Bool :=
  match s with
  | none => false
  | some v => decide (v ∈ l)

/-- Observable effects of the poll loop: one event per HTTP GET of the
status endpoint (tagged with its 0-based attempt index) and one per
`time.sleep(delay)`. -/
inductive PollEvent where
  | fetchCall (attempt : Nat)
  | sleep
deriving DecidableEq, Repr

/-- Outcome of `poll_genie_message`: a normal `return message_data`, the
`raise Exception(f"Failed to get response after {max_attempts} attempts")`
on a transport error in the final attempt, or the
`raise Exception("Timeout waiting for Genie response")` after the loop. -/
inductive PollResult where
  | returned (md : MessageData)
  | exhausted (e : String)
  | timeout
deriving DecidableEq, Repr

/-- Result of a poll run together with its recorded events, in order. -/
structure PollTrace where
  result : PollResult
  events : List PollEvent
deriving DecidableEq, Repr

/-- Body of the `for attempt in range(max_attempts)` loop of
`poll_genie_message` (src/main.py lines 172-201), entered at a given
attempt index with `fuel` iterations left (`fuel = max_attempts - attempt`
throughout a run).  Each iteration issues one GET (recorded as a
`fetchCall` event); a terminal status or an unrecognized status returns
the body at once; an in-progress status sleeps and continues; a transport
error on the last attempt (`attempt == max_attempts - 1`) raises the
exhaustion exception, on earlier attempts it sleeps and continues.
Running out of fuel is falling off the loop: the timeout exception. -/
def pollLoop (fetch : Nat → FetchOutcome) (maxAttempts attempt fuel : Nat) : PollTrace :=
  match fuel with
  | 0 => ⟨.timeout, []⟩
  | fuel' + 1 =>
    match fetch attempt with
    | .ok md =>
      if statusIn md.status terminalStatuses then
        ⟨.returned md, [.fetchCall attempt]⟩
      else if statusIn md.status inProgressStatuses then
        let rest := pollLoop fetch maxAttempts (attempt + 1) fuel'
        ⟨rest.result, .fetchCall attempt :: .sleep :: rest.events⟩
      else
        ⟨.returned md, [.fetchCall attempt]⟩
    | .err _ =>
      if attempt = maxAttempts - 1 then
        ⟨.exhausted ("Failed to get response after " ++ toString maxAttempts ++ " attempts"),
         [.fetchCall attempt]⟩
      else
        let rest := pollLoop fetch maxAttempts (attempt + 1) fuel'
        ⟨rest.result, .fetchCall attempt :: .sleep :: rest.events⟩

/-- The poll loop entered at `attempt`, with the remaining-iteration count
it has there (`maxAttempts - attempt`); `pollFrom fetch maxAttempts 0` is
the whole loop of `poll_genie_message`. -/
def pollFrom (fetch : Nat → FetchOutcome) (maxAttempts attempt : Nat) : PollTrace :=
  pollLoop fetch maxAttempts attempt (maxAttempts - attempt)

/-- The function `poll_genie_message` (src/main.py lines 163-201) with its
default attempt budget `max_attempts=30`; the fixed `delay=2` only fixes
the sleep duration and is not otherwise observable. -/
def poll_genie_message (fetch : Nat → FetchOutcome) (maxAttempts : Nat := 30) : PollTrace :=
  pollFrom fetch maxAttempts 0

/-- Recognizer for fetch-call events. -/
def isFetchCallEvent : PollEvent → Bool
  | .fetchCall _ => true
  | .sleep => false

/-- Recognizer for sleep events. -/
def isSleepEvent : PollEvent → Bool
  | .fetchCall _ => false
  | .sleep => true

/-- Number of status-endpoint GETs recorded in an event list. -/
def numCalls (evs : List PollEvent) : Nat := evs.countP isFetchCallEvent

/-- Number of sleeps recorded in an event list. -/
def numSleeps (evs : List PollEvent) : Nat := evs.countP isSleepEvent

/-- One JSON value of a `data_array` cell, with Python `str` rendering. -/
inductive JValue where
  | s (v : String)
  | i (v : Int)
  | b (v : Bool)
  | null
deriving DecidableEq, Repr

/-- Python `str(item)` for a cell value (`str(None) = "None"`,
`str(True) = "True"`). -/
def JValue.pyStr : JValue → String
  | .s v => v
  | .i v => toString v
  | .b true => "True"
  | .b false => "False"
  | .null => "None"

/-- One entry of `statement_response.manifest.schema.columns`;
`col.get('name', '')` defaults an absent name to the empty string. -/
structure Column where
  name : Option String
deriving DecidableEq, Repr

/-- Parsed JSON body of a query-result response (`result_data` in
`format_query_result`), reduced to the fields the function reads:
`sql` is `statement_response.manifest.schema.sql`, `data_array` is
`statement_response.result.data_array` (default `[]`), `columns` is
`statement_response.manifest.schema.columns` (default `[]`). -/
structure ResultData where
  sql : Option String
  data_array : List (List JValue)
  columns : List Column
deriving DecidableEq, Repr

/-- The function `format_query_result` (src/main.py lines 230-280).
The sequential `formatted_result +=` building of the Python body is
rendered as the chain `fr1`/`fr2`/`fr3`/`fr4`; `if sql_query:` and
`if column_names:` are Python truthiness tests (empty string and empty
list are falsy).  The `try/except` wrapper of the source can only fire on
a failure inside the body (e.g. of `str`); the embedded body is total, so
that handler has no corresponding branch here. -/
def format_query_result (rd : ResultData) : String :=
  let sql_query := rd.sql
  let data_array := rd.data_array
  let column_names := rd.columns.map fun c => c.name.getD ""
  if data_array.isEmpty then
    "No data returned from the query"
  else
    let fr1 : String :=
      if truthyStr sql_query then
        "*SQL Query: *\n```" ++ sql_query.getD "" ++ "\n" ++ "```\n\n"
      else ""
    let fr2 : String :=
      if column_names.isEmpty then
        fr1 ++ "*Results:*\n```\n"
      else
        fr1 ++ "*Results:*\n" ++ "```" ++ String.intercalate " | " column_names ++ "\n"
          ++ String.intercalate " | " (List.replicate column_names.length "---") ++ "\n"
    let fr3 : String :=
      fr2 ++ String.join ((data_array.take 10).map fun row =>
        String.intercalate " | " (row.map JValue.pyStr) ++ "\n")
    let fr4 : String :=
      if data_array.length > 10 then
        fr3 ++ "... and " ++ toString (data_array.length - 10) ++ " more rows\n"
      else fr3
    fr4 ++ "```"

/-- Outcome of the HTTP GET of the attachment query-result endpoint: a
parsed body, or a `requests.exceptions.RequestException` message. -/
inductive QueryFetchOutcome where
  | ok (rd : ResultData)
  | err (e : String)
deriving DecidableEq, Repr

/-- The function `execute_message_attachment_query` (src/main.py lines
204-227), with the endpoint modelled by the oracle `fetchQR` keyed by the
attachment id (the id is interpolated into the URL unvalidated; `None`
becomes the path segment "None").  On success the body is formatted, on a
transport error the function returns the error string of line 227. -/
def execute_message_attachment_query (attachment_id : Option String)
    (fetchQR : Option String → QueryFetchOutcome) : String :=
  match fetchQR attachment_id with
  | .ok rd => format_query_result rd
  | .err e => "Error retrieving query result: " ++ e

/-- Parsed JSON body of a successful start-conversation response:
`conversation_id` models the nested `conversation.id`, `message_id` the
nested `message.id`; either may be absent.  A `None` return of
`start_genie_conversation` (transport error) and an empty-object response
are both modelled upstream as the absence of this body: both are falsy at
the `if not conversation_response:` check and lead to the same result. -/
structure StartResp where
  conversation_id : Option String
  message_id : Option String
deriving DecidableEq, Repr

/-- Python `f"{status}"` for the optional status field
(`None` renders as "None"). -/
def pyStrOfOptStr : Option String → String
  | none => "None"
  | some s => s

/-- Steps 2 and 3 of `call_genie_api` (src/main.py lines 110-133): poll,
then dispatch on the final status.  The `.exhausted` and `.timeout`
branches are the `except Exception as e: return f"Error: {str(e)}"`
handler of lines 135-137 catching the two raises of
`poll_genie_message`. -/
def genieProcessMessage (fetch : Nat → FetchOutcome)
    (fetchQR : Option String → QueryFetchOutcome) : String :=
  match (poll_genie_message fetch).result with
  | .returned md =>
    if md.status = some "COMPLETED" then
      match md.attachments with
      | [] => md.content.getD "No response content available"
      | a :: _ => execute_message_attachment_query a.attachment_id fetchQR
    else if md.status = some "FAILED" then
      "Genie query failed: " ++ md.error_message.getD "Unknown error"
    else
      "Unexpected status: " ++ pyStrOfOptStr md.status
  | .exhausted e => "Error: " ++ e
  | .timeout => "Error: Timeout waiting for Genie response"

/-- The function `call_genie_api` (src/main.py lines 92-137), the
orchestrator `run(text)`.  `start` is the outcome of
`start_genie_conversation` (`none` for a transport error or falsy
response), `fetch` the status endpoint, `fetchQR` the query-result
endpoint.  The guard mirrors
`if not conversation_id or not message_id:` with Python truthiness. -/
def call_genie_api (start : Option StartResp) (fetch : Nat → FetchOutcome)
    (fetchQR : Option String → QueryFetchOutcome) : String :=
  match start with
  | none => "Error: Could not start conversation with Genie"
  | some r =>
    if !truthyStr r.conversation_id || !truthyStr r.message_id then
      "Error: Invalid response from Genie API"
    else
      genieProcessMessage fetch fetchQR

/-- Search for a contiguous occurrence of `needle` in a character list:
`needle` occurs at the front, or somewhere in the tail. -/
def charListContains (needle : List Char) : List Char → Bool
  | [] => needle.isPrefixOf []
  | c :: rest => needle.isPrefixOf (c :: rest) || charListContains needle rest

/-- Substring test on strings (via contiguous-sublist search on the
underlying character lists). -/
def strContains (hay needle : String) : Bool :=
  charListContains needle.data hay.data

/-- Rendering of a query result following the spec's words (section 4.3),
for comparison with `format_query_result`: a fenced block containing the
SQL text when it is present and non-empty; then a results block opening
with a header row of the column names and a `---` separator row when the
column list is non-empty; then one line per data row (the first 10) with
the stringified values joined by " | "; then the note
"... and N more rows" exactly when the row count exceeds 10, with N the
count minus 10. -/
def specRenderQueryResult (rd : ResultData) : String :=
  let names := rd.columns.map fun c => c.name.getD ""
  let sqlBlock : String :=
    if truthyStr rd.sql then "*SQL Query: *\n```" ++ rd.sql.getD "" ++ "\n```\n\n" else ""
  let headerBlock : String :=
    if names.isEmpty then "*Results:*\n```\n"
    else
      "*Results:*\n```" ++ String.intercalate " | " names ++ "\n"
        ++ String.intercalate " | " (List.replicate names.length "---") ++ "\n"
  let rowLines : String :=
    String.join ((rd.data_array.take 10).map fun row =>
      String.intercalate " | " (row.map JValue.pyStr) ++ "\n")
  let note : String :=
    if rd.data_array.length > 10 then
      "... and " ++ toString (rd.data_array.length - 10) ++ " more rows\n"
    else ""
  sqlBlock ++ headerBlock ++ rowLines ++ note ++ "```"

/-- Fixture: a status body that is forever in progress. -/
def mdRunning : MessageData := ⟨some "IN_PROGRESS", none, [], none⟩

/-- Fixture: a status endpoint that always answers `IN_PROGRESS`. -/
def fetchRunning : Nat → FetchOutcome := fun _ => .ok mdRunning

/-- Fixture: a FAILED status body carrying an error message. -/
def mdFailed : MessageData := ⟨some "FAILED", none, [], some "syntax error"⟩

/-- Fixture: a status endpoint that answers FAILED at once. -/
def fetchFailedStatus : Nat → FetchOutcome := fun _ => .ok mdFailed

/-- Fixture: a status body with a status string in neither recognized
set. -/
def mdUnknownStatus : MessageData := ⟨some "BANANAS", none, [], none⟩

/-- Fixture: a status endpoint answering the unrecognized status. -/
def fetchUnknownStatus : Nat → FetchOutcome := fun _ => .ok mdUnknownStatus

/-- Fixture: a status endpoint that always fails at transport level. -/
def errFetch : Nat → FetchOutcome := fun _ => .err "connection refused"

/-- Fixture: a start-conversation response carrying both identifiers. -/
def rGood : StartResp := ⟨some "conv-1", some "msg-1"⟩

/-- Fixture: a query-result endpoint that always fails at transport
level. -/
def fetchQRErr : Option String → QueryFetchOutcome := fun _ => .err "gateway timeout"

/-- Fixture: a fetched query result with SQL text and a column name but an
empty `data_array`. -/
def rdNoRows : ResultData := ⟨some "SELECT 1", [], [⟨some "x"⟩]⟩

/-- Fixture: a fetched query result with two columns and 15 rows. -/
def rd15 : ResultData :=
  ⟨some "SELECT x,y FROM t", List.replicate 15 [JValue.i 1, JValue.s "foo"],
   [⟨some "x"⟩, ⟨some "y"⟩]⟩

/-- Fixture: a COMPLETED status body whose single attachment lacks the
`attachment_id` field. -/
def mdCompletedNoId : MessageData := ⟨some "COMPLETED", some "hi", [⟨none⟩], none⟩

/-- Fixture: a status endpoint answering that COMPLETED body at once. -/
def fetchCompletedNoId : Nat → FetchOutcome := fun _ => .ok mdCompletedNoId

/-- Unfolding lemma: inside the budget, an iteration whose fetch succeeds
with a terminal status returns that body after its single GET. -/
theorem pollFrom_ok_terminal (fetch : Nat → FetchOutcome) (maxA i : Nat)
    (md : MessageData) (hi : i < maxA) (hf : fetch i = .ok md)
    (ht : statusIn md.status terminalStatuses = true) :
    pollFrom fetch maxA i = ⟨.returned md, [.fetchCall i]⟩ := by
  unfold pollFrom
  rw [show maxA - i = (maxA - (i + 1)) + 1 by omega]
  simp [pollLoop, hf, ht]

/-- Unfolding lemma: inside the budget, an iteration whose fetch succeeds
with a status in neither recognized set returns that body after its single
GET, without sleeping. -/
theorem pollFrom_ok_unknown (fetch : Nat → FetchOutcome) (maxA i : Nat)
    (md : MessageData) (hi : i < maxA) (hf : fetch i = .ok md)
    (ht : statusIn md.status terminalStatuses = false)
    (hp : statusIn md.status inProgressStatuses = false) :
    pollFrom fetch maxA i = ⟨.returned md, [.fetchCall i]⟩ := by
  unfold pollFrom
  rw [show maxA - i = (maxA - (i + 1)) + 1 by omega]
  simp [pollLoop, hf, ht, hp]

/-- Unfolding lemma: inside the budget, an iteration whose fetch succeeds
with an in-progress status sleeps and continues with the next attempt. -/
theorem pollFrom_ok_inprogress (fetch : Nat → FetchOutcome) (maxA i : Nat)
    (md : MessageData) (hi : i < maxA) (hf : fetch i = .ok md)
    (ht : statusIn md.status terminalStatuses = false)
    (hp : statusIn md.status inProgressStatuses = true) :
    pollFrom fetch maxA i =
      ⟨(pollFrom fetch maxA (i + 1)).result,
       .fetchCall i :: .sleep :: (pollFrom fetch maxA (i + 1)).events⟩ := by
  conv_lhs => unfold pollFrom
  rw [show maxA - i = (maxA - (i + 1)) + 1 by omega]
  simp [pollLoop, hf, ht, hp, pollFrom]

/-- Unfolding lemma: a transport error on an attempt that is not the last
one sleeps and continues with the next attempt. -/
theorem pollFrom_err_mid (fetch : Nat → FetchOutcome) (maxA i : Nat)
    (e : String) (hi : i + 1 < maxA) (hf : fetch i = .err e) :
    pollFrom fetch maxA i =
      ⟨(pollFrom fetch maxA (i + 1)).result,
       .fetchCall i :: .sleep :: (pollFrom fetch maxA (i + 1)).events⟩ := by
  conv_lhs => unfold pollFrom
  rw [show maxA - i = (maxA - (i + 1)) + 1 by omega]
  simp [pollLoop, hf, show ¬ i = maxA - 1 by omega, pollFrom]

/-- Unfolding lemma: a transport error on the final attempt raises the
exhaustion exception after its single GET, without sleeping. -/
theorem pollFrom_err_last (fetch : Nat → FetchOutcome) (maxA i : Nat)
    (e : String) (hi : i + 1 = maxA) (hf : fetch i = .err e) :
    pollFrom fetch maxA i =
      ⟨.exhausted ("Failed to get response after " ++ toString maxA ++ " attempts"),
       [.fetchCall i]⟩ := by
  unfold pollFrom
  rw [show maxA - i = 1 by omega]
  simp only [pollLoop]
  rw [hf, if_pos (show i = maxA - 1 by omega)]

/-- Unfolding lemma: at or past the budget the loop is over and the
timeout exception is raised, with no further GET or sleep. -/
theorem pollFrom_out (fetch : Nat → FetchOutcome) (maxA i : Nat)
    (h : ¬ i < maxA) : pollFrom fetch maxA i = ⟨.timeout, []⟩ := by
  unfold pollFrom
  rw [show maxA - i = 0 by omega]
  rfl

/-- A status recognized as in-progress is not recognized as terminal: the
two lists of `poll_genie_message` are disjoint. -/
theorem inProgress_not_terminal (s : Option String)
    (h : statusIn s inProgressStatuses = true) :
    statusIn s terminalStatuses = false := by
  cases s with
  | none => simp [statusIn] at h
  | some v =>
    simp only [statusIn, inProgressStatuses, decide_eq_true_eq] at h
    fin_cases h <;> decide

/-- Induction core for the timeout claim: if every attempt from `a` on
(within the budget) fetches successfully and reports an in-progress
status, the loop entered at `a` raises the timeout exception after
exactly `maxA - a` GETs and `maxA - a` sleeps. -/
theorem pollFrom_all_inprogress (fetch : Nat → FetchOutcome) (maxA : Nat) :
    ∀ fuel a, maxA - a = fuel →
    (∀ i, a ≤ i → i < maxA →
      (fetch i).isOk = true ∧ statusIn (fetch i).statusOf inProgressStatuses = true) →
    (pollFrom fetch maxA a).result = .timeout ∧
    numCalls (pollFrom fetch maxA a).events = maxA - a ∧
    numSleeps (pollFrom fetch maxA a).events = maxA - a := by
  intro fuel
  induction fuel with
  | zero =>
    intro a ha _hyp
    rw [pollFrom_out fetch maxA a (by omega)]
    refine ⟨rfl, ?_, ?_⟩ <;> simp [numCalls, numSleeps] <;> omega
  | succ n ih =>
    intro a ha hyp
    have haA : a < maxA := by omega
    obtain ⟨hok, hst⟩ := hyp a le_rfl haA
    cases hfa : fetch a with
    | err e => rw [hfa] at hok; simp [FetchOutcome.isOk] at hok
    | ok md =>
      rw [hfa] at hst
      simp only [FetchOutcome.statusOf] at hst
      have hterm := inProgress_not_terminal md.status hst
      rw [pollFrom_ok_inprogress fetch maxA a md haA hfa hterm hst]
      have hrec := ih (a + 1) (by omega) (fun i h1 h2 => hyp i (by omega) h2)
      have hc : numCalls (PollEvent.fetchCall a :: PollEvent.sleep ::
          (pollFrom fetch maxA (a + 1)).events) =
          numCalls (pollFrom fetch maxA (a + 1)).events + 1 := by
        simp [numCalls, List.countP_cons, isFetchCallEvent, isSleepEvent]
      have hs : numSleeps (PollEvent.fetchCall a :: PollEvent.sleep ::
          (pollFrom fetch maxA (a + 1)).events) =
          numSleeps (pollFrom fetch maxA (a + 1)).events + 1 := by
        simp [numSleeps, List.countP_cons, isFetchCallEvent, isSleepEvent]
      refine ⟨hrec.1, ?_, ?_⟩
      · show numCalls (PollEvent.fetchCall a :: PollEvent.sleep :: _) = maxA - a
        rw [hc, hrec.2.1]; omega
      · show numSleeps (PollEvent.fetchCall a :: PollEvent.sleep :: _) = maxA - a
        rw [hs, hrec.2.2]; omega

/-- C1: a fetched status outside both the terminal set and the
in-progress set makes the poll loop return that body as terminal on its
first occurrence, with exactly one GET and no sleep, and makes the
orchestrator's returned string name the unexpected status
(src/main.py lines 190-192 and 132-133). -/
theorem unknown_status_is_terminal :
    ∀ (fetch : Nat → FetchOutcome) (maxA i : Nat) (md : MessageData) (s : String),
    i < maxA → fetch i = .ok md → md.status = some s →
    s ∉ terminalStatuses → s ∉ inProgressStatuses →
    (pollFrom fetch maxA i = ⟨.returned md, [.fetchCall i]⟩ ∧
     ∀ (r : StartResp) (fetchQR : Option String → QueryFetchOutcome),
       truthyStr r.conversation_id = true → truthyStr r.message_id = true →
       (poll_genie_message fetch).result = .returned md →
       call_genie_api (some r) fetch fetchQR = "Unexpected status: " ++ s) := by
  intro fetch maxA i md s hi hf hs ht hp
  have ht' : statusIn md.status terminalStatuses = false := by
    simp [statusIn, hs, ht]
  have hp' : statusIn md.status inProgressStatuses = false := by
    simp [statusIn, hs, hp]
  refine ⟨pollFrom_ok_unknown fetch maxA i md hi hf ht' hp', ?_⟩
  intro r fetchQR h1 h2 hres
  have hsC : s ≠ "COMPLETED" := by rintro rfl; exact ht (by decide)
  have hsF : s ≠ "FAILED" := by rintro rfl; exact ht (by decide)
  simp [call_genie_api, h1, h2, genieProcessMessage, hres, hsC, hsF, hs, pyStrOfOptStr]

/-- Witness for C1 at a concrete status string "BANANAS". -/
theorem unknown_status_is_terminal_witness :
    pollFrom fetchUnknownStatus 30 0 = ⟨.returned mdUnknownStatus, [.fetchCall 0]⟩ ∧
    call_genie_api (some rGood) fetchUnknownStatus fetchQRErr =
      "Unexpected status: " ++ "BANANAS" := by
  have h := unknown_status_is_terminal fetchUnknownStatus 30 0 mdUnknownStatus "BANANAS"
    (by decide) rfl rfl (by decide) (by decide)
  exact ⟨h.1, h.2 rGood fetchQRErr (by decide) (by decide) (by decide)⟩

/-- C2: when every attempt within the budget fetches an in-progress
status, the poll loop issues exactly `max_attempts` GETs of the status
endpoint, sleeps the fixed delay after each of them, and raises the
timeout exception rather than ever returning an in-progress body
(src/main.py lines 172-201). -/
theorem inprogress_exhausts_budget_timeout :
    ∀ (fetch : Nat → FetchOutcome) (maxA : Nat),
    (∀ i, i < maxA →
      (fetch i).isOk = true ∧ statusIn (fetch i).statusOf inProgressStatuses = true) →
    (poll_genie_message fetch maxA).result = .timeout ∧
    numCalls (poll_genie_message fetch maxA).events = maxA ∧
    numSleeps (poll_genie_message fetch maxA).events = maxA := by
  intro fetch maxA hyp
  have h := pollFrom_all_inprogress fetch maxA (maxA - 0) 0 rfl (fun i _ h2 => hyp i h2)
  simpa [poll_genie_message] using h

/-- Witness for C2 at the default budget of 30 attempts. -/
theorem inprogress_exhausts_budget_timeout_witness :
    (poll_genie_message fetchRunning 30).result = .timeout ∧
    numCalls (poll_genie_message fetchRunning 30).events = 30 ∧
    numSleeps (poll_genie_message fetchRunning 30).events = 30 :=
  inprogress_exhausts_budget_timeout fetchRunning 30 (by decide)

/-- C3: a transport failure of the status fetch on an attempt before the
last causes a sleep and a retry of the next attempt, while a transport
failure on the final permitted attempt raises the exhaustion exception
(`Failed to get response after {max_attempts} attempts`) instead of
retrying past the budget (src/main.py lines 194-199). -/
theorem transport_error_retry_except_last :
    ∀ (fetch : Nat → FetchOutcome) (maxA i : Nat) (e : String),
    fetch i = .err e →
    ((i + 1 < maxA →
        pollFrom fetch maxA i =
          ⟨(pollFrom fetch maxA (i + 1)).result,
           .fetchCall i :: .sleep :: (pollFrom fetch maxA (i + 1)).events⟩) ∧
     (i + 1 = maxA →
        pollFrom fetch maxA i =
          ⟨.exhausted ("Failed to get response after " ++ toString maxA ++ " attempts"),
           [.fetchCall i]⟩)) := by
  intro fetch maxA i e hf
  exact ⟨fun h => pollFrom_err_mid fetch maxA i e h hf,
         fun h => pollFrom_err_last fetch maxA i e h hf⟩

/-- Witness for C3 with a 3-attempt budget: attempt 0 retries after a
sleep, attempt 2 (the last) raises the exhaustion exception. -/
theorem transport_error_retry_except_last_witness :
    pollFrom errFetch 3 0 =
      ⟨(pollFrom errFetch 3 1).result,
       .fetchCall 0 :: .sleep :: (pollFrom errFetch 3 1).events⟩ ∧
    pollFrom errFetch 3 2 =
      ⟨.exhausted ("Failed to get response after " ++ toString 3 ++ " attempts"),
       [.fetchCall 2]⟩ :=
  ⟨(transport_error_retry_except_last errFetch 3 0 "connection refused" rfl).1 (by decide),
   (transport_error_retry_except_last errFetch 3 2 "connection refused" rfl).2 rfl⟩

/-- C4: a fetched terminal status (COMPLETED, FAILED or CANCELLED) makes
the poll loop return that body immediately on its first occurrence, with
exactly one GET and no sleep (src/main.py lines 181-182). -/
theorem terminal_status_returns_first :
    ∀ (fetch : Nat → FetchOutcome) (maxA i : Nat) (md : MessageData),
    i < maxA → fetch i = .ok md → statusIn md.status terminalStatuses = true →
    pollFrom fetch maxA i = ⟨.returned md, [.fetchCall i]⟩ :=
  fun fetch maxA i md hi hf ht => pollFrom_ok_terminal fetch maxA i md hi hf ht

/-- Witness for C4 at a FAILED status fetched on the first attempt. -/
theorem terminal_status_returns_first_witness :
    pollFrom fetchFailedStatus 30 0 = ⟨.returned mdFailed, [.fetchCall 0]⟩ :=
  terminal_status_returns_first fetchFailedStatus 30 0 mdFailed (by decide) rfl (by decide)

/-- A character list is a prefix of itself. -/
theorem isPrefixOf_self (l : List Char) : l.isPrefixOf l = true := by
  induction l with
  | nil => rfl
  | cons c t ih => simp [List.isPrefixOf, ih]

/-- A character list occurs in anything of which it is a suffix. -/
theorem charListContains_suffix (l₁ l₂ : List Char) :
    charListContains l₂ (l₁ ++ l₂) = true := by
  induction l₁ with
  | nil =>
    cases l₂ with
    | nil => rfl
    | cons c t => simp [charListContains, isPrefixOf_self]
  | cons c t ih => simp [charListContains, ih]

/-- A string occurs as a substring of any string ending in it. -/
theorem strContains_append_right (a b : String) : strContains (a ++ b) b = true := by
  unfold strContains
  rw [String.data_append]
  exact charListContains_suffix a.data b.data

/-- C5: the orchestrator `call_genie_api` is a total function to strings
(it cannot raise: the model's exceptional poll outcomes are consumed by
its handler), and each error kind becomes the descriptive user-facing
message of src/main.py lines 92-137: a failed start call, a start
response missing an identifier, a remote-reported FAILED state, the
timeout and exhaustion exceptions of the poller, and a transport failure
of the attachment fetch. -/
theorem orchestrator_errors_to_strings :
    ∀ (fetch : Nat → FetchOutcome) (fetchQR : Option String → QueryFetchOutcome),
    (call_genie_api none fetch fetchQR = "Error: Could not start conversation with Genie") ∧
    (∀ r : StartResp,
      (truthyStr r.conversation_id = false ∨ truthyStr r.message_id = false) →
      call_genie_api (some r) fetch fetchQR = "Error: Invalid response from Genie API") ∧
    (∀ r : StartResp, truthyStr r.conversation_id = true → truthyStr r.message_id = true →
      ((∀ md, (poll_genie_message fetch).result = .returned md → md.status = some "FAILED" →
          call_genie_api (some r) fetch fetchQR =
            "Genie query failed: " ++ md.error_message.getD "Unknown error") ∧
       ((poll_genie_message fetch).result = .timeout →
          call_genie_api (some r) fetch fetchQR = "Error: Timeout waiting for Genie response") ∧
       (∀ e, (poll_genie_message fetch).result = .exhausted e →
          call_genie_api (some r) fetch fetchQR = "Error: " ++ e) ∧
       (∀ md a rest e, (poll_genie_message fetch).result = .returned md →
          md.status = some "COMPLETED" → md.attachments = a :: rest →
          fetchQR a.attachment_id = .err e →
          call_genie_api (some r) fetch fetchQR = "Error retrieving query result: " ++ e))) := by
  intro fetch fetchQR
  refine ⟨rfl, ?_, ?_⟩
  · intro r hr
    rcases hr with hr | hr <;> simp [call_genie_api, hr]
  · intro r h1 h2
    refine ⟨?_, ?_, ?_, ?_⟩
    · intro md hres hstat
      simp [call_genie_api, h1, h2, genieProcessMessage, hres, hstat]
    · intro hres
      simp [call_genie_api, h1, h2, genieProcessMessage, hres]
    · intro e hres
      simp [call_genie_api, h1, h2, genieProcessMessage, hres]
    · intro md a rest e hres hstat hatt hq
      simp [call_genie_api, h1, h2, genieProcessMessage, hres, hstat, hatt,
        execute_message_attachment_query, hq]

/-- Witness for C5: each error kind at a concrete world. -/
theorem orchestrator_errors_to_strings_witness :
    call_genie_api none errFetch fetchQRErr =
      "Error: Could not start conversation with Genie" ∧
    call_genie_api (some ⟨none, some "msg-1"⟩) errFetch fetchQRErr =
      "Error: Invalid response from Genie API" ∧
    call_genie_api (some rGood) fetchFailedStatus fetchQRErr =
      "Genie query failed: " ++ mdFailed.error_message.getD "Unknown error" ∧
    call_genie_api (some rGood) fetchRunning fetchQRErr =
      "Error: Timeout waiting for Genie response" ∧
    call_genie_api (some rGood) errFetch fetchQRErr =
      "Error: " ++ "Failed to get response after 30 attempts" ∧
    call_genie_api (some rGood) fetchCompletedNoId fetchQRErr =
      "Error retrieving query result: " ++ "gateway timeout" := by
  refine ⟨(orchestrator_errors_to_strings errFetch fetchQRErr).1,
    (orchestrator_errors_to_strings errFetch fetchQRErr).2.1 ⟨none, some "msg-1"⟩ (Or.inl rfl),
    ((orchestrator_errors_to_strings fetchFailedStatus fetchQRErr).2.2 rGood
      (by decide) (by decide)).1 mdFailed (by decide) rfl,
    ((orchestrator_errors_to_strings fetchRunning fetchQRErr).2.2 rGood
      (by decide) (by decide)).2.1 (by decide),
    ((orchestrator_errors_to_strings errFetch fetchQRErr).2.2 rGood
      (by decide) (by decide)).2.2.1 "Failed to get response after 30 attempts" (by decide),
    ((orchestrator_errors_to_strings fetchCompletedNoId fetchQRErr).2.2 rGood
      (by decide) (by decide)).2.2.2 mdCompletedNoId ⟨none⟩ [] "gateway timeout"
      (by decide) rfl rfl rfl⟩

/-- C7: the attachment-result path is a total function to strings: a
transport failure of the fetch yields the error string of src/main.py
line 227, which ends in (so embeds) the failure reason, and a successful
fetch yields the formatter's output, itself total (lines 278-280). -/
theorem attachment_format_total_embeds_reason :
    ∀ (aid : Option String) (fetchQR : Option String → QueryFetchOutcome),
    (∀ e, fetchQR aid = .err e →
      execute_message_attachment_query aid fetchQR = "Error retrieving query result: " ++ e ∧
      strContains (execute_message_attachment_query aid fetchQR) e = true) ∧
    (∀ rd, fetchQR aid = .ok rd →
      execute_message_attachment_query aid fetchQR = format_query_result rd) := by
  intro aid fetchQR
  constructor
  · intro e hq
    have he : execute_message_attachment_query aid fetchQR =
        "Error retrieving query result: " ++ e := by
      simp [execute_message_attachment_query, hq]
    exact ⟨he, by rw [he]; exact strContains_append_right _ _⟩
  · intro rd hq
    simp [execute_message_attachment_query, hq]

/-- Witness for C7: a failing fetch embeds its reason; a succeeding fetch
formats its body. -/
theorem attachment_format_total_embeds_reason_witness :
    (execute_message_attachment_query none fetchQRErr =
       "Error retrieving query result: " ++ "gateway timeout" ∧
     strContains (execute_message_attachment_query none fetchQRErr) "gateway timeout" = true) ∧
    execute_message_attachment_query (some "a1") (fun _ => .ok rd15) =
      format_query_result rd15 :=
  ⟨(attachment_format_total_embeds_reason none fetchQRErr).1 "gateway timeout" rfl,
   (attachment_format_total_embeds_reason (some "a1") (fun _ => .ok rd15)).2 rd15 rfl⟩

/-- C8 counterexample: a start response that carries a conversation
identifier but no message identifier — so at least one of the two — is
still rejected with the malformed-response message, because line 107 of
src/main.py tests `if not conversation_id or not message_id:`.  This
refutes the claim that only a response lacking both identifiers is
rejected. -/
theorem malformed_with_one_identifier_present :
    call_genie_api (some ⟨some "conv-1", none⟩) errFetch fetchQRErr =
      "Error: Invalid response from Genie API" := by rfl

/-- C8 amended: the orchestrator classifies a (non-empty) start response
as malformed exactly when at least one of the two identifiers is missing
or falsy; when both are truthy it proceeds to polling and processing. -/
theorem malformed_iff_some_identifier_missing :
    ∀ (r : StartResp) (fetch : Nat → FetchOutcome)
      (fetchQR : Option String → QueryFetchOutcome),
    ((truthyStr r.conversation_id = false ∨ truthyStr r.message_id = false) →
       call_genie_api (some r) fetch fetchQR = "Error: Invalid response from Genie API") ∧
    (truthyStr r.conversation_id = true → truthyStr r.message_id = true →
       call_genie_api (some r) fetch fetchQR = genieProcessMessage fetch fetchQR) := by
  intro r fetch fetchQR
  constructor
  · rintro (hr | hr) <;> simp [call_genie_api, hr]
  · intro h1 h2
    simp [call_genie_api, h1, h2]

/-- Witness for amended C8: both identifiers missing is rejected; both
present proceeds. -/
theorem malformed_iff_some_identifier_missing_witness :
    call_genie_api (some ⟨none, none⟩) errFetch fetchQRErr =
      "Error: Invalid response from Genie API" ∧
    call_genie_api (some rGood) fetchFailedStatus fetchQRErr =
      genieProcessMessage fetchFailedStatus fetchQRErr :=
  ⟨(malformed_iff_some_identifier_missing ⟨none, none⟩ errFetch fetchQRErr).1 (Or.inl rfl),
   (malformed_iff_some_identifier_missing rGood fetchFailedStatus fetchQRErr).2
     (by decide) (by decide)⟩

/-- C9: an empty `data_array` makes `format_query_result` return the
fixed string of src/main.py line 249 before any block is built, so the
output contains no fenced block (hence neither the SQL block nor the
header row), whatever the SQL text and column names are. -/
theorem empty_rows_no_data_string :
    ∀ rd : ResultData, rd.data_array = [] →
    format_query_result rd = "No data returned from the query" ∧
    strContains (format_query_result rd) "```" = false := by
  intro rd h
  have h1 : format_query_result rd = "No data returned from the query" := by
    simp [format_query_result, h]
  exact ⟨h1, by rw [h1]; decide⟩

/-- Witness for C9 at a result that does carry SQL text and a column
name. -/
theorem empty_rows_no_data_string_witness :
    rdNoRows.data_array = [] ∧
    (format_query_result rdNoRows = "No data returned from the query" ∧
     strContains (format_query_result rdNoRows) "```" = false) :=
  ⟨rfl, empty_rows_no_data_string rdNoRows rfl⟩

/-- C10: a COMPLETED message whose first attachment lacks the
`attachment_id` field is not reported as a protocol error: the
orchestrator issues the attachment-result fetch with the absent (`none`)
identifier, performing no validation first (src/main.py lines 119-123
and 204-227). -/
theorem missing_attachment_id_fetch_unvalidated :
    ∀ (r : StartResp) (fetch : Nat → FetchOutcome)
      (fetchQR : Option String → QueryFetchOutcome)
      (md : MessageData) (a : Attachment) (rest : List Attachment),
    truthyStr r.conversation_id = true → truthyStr r.message_id = true →
    (poll_genie_message fetch).result = .returned md →
    md.status = some "COMPLETED" → md.attachments = a :: rest → a.attachment_id = none →
    call_genie_api (some r) fetch fetchQR = execute_message_attachment_query none fetchQR := by
  intro r fetch fetchQR md a rest h1 h2 hres hstat hatt hid
  simp [call_genie_api, h1, h2, genieProcessMessage, hres, hstat, hatt, hid]

/-- Witness for C10 at a concrete COMPLETED body with an id-less
attachment. -/
theorem missing_attachment_id_fetch_unvalidated_witness :
    call_genie_api (some rGood) fetchCompletedNoId fetchQRErr =
      execute_message_attachment_query none fetchQRErr :=
  missing_attachment_id_fetch_unvalidated rGood fetchCompletedNoId fetchQRErr
    mdCompletedNoId ⟨none⟩ [] (by decide) (by decide) (by decide) rfl rfl rfl

/-- C6 counterexample: at a successfully fetched result carrying SQL text
and a column name but no rows, `format_query_result` returns the fixed
no-data string (src/main.py lines 248-249): the output contains no fenced
SQL block and no header row with the column name "x", although the claim,
quantified over every successfully fetched QueryResult, requires both
whenever SQL text and column names are present. -/
theorem format_claimed_rendering_fails_on_empty_rows :
    format_query_result rdNoRows = "No data returned from the query" ∧
    strContains (format_query_result rdNoRows) "x" = false ∧
    strContains (format_query_result rdNoRows) "```" = false := by decide

/-- C6 amended: for every successfully fetched result with at least one
row, the built display string equals the spec's rendering: the fenced SQL
block when the SQL text is present and non-empty, the header row of
column names and the `---` separator row when the column list is
non-empty, one line per data row limited to the first 10 with values
joined by " | ", and the trailing "... and N more rows" note exactly when
the row count exceeds 10, with N the count minus 10
(src/main.py lines 230-280). -/
theorem format_renders_spec_when_rows_nonempty :
    ∀ rd : ResultData, rd.data_array ≠ [] →
    format_query_result rd = specRenderQueryResult rd := by
  intro rd h
  have hne : rd.data_array.isEmpty = false := by
    cases hd : rd.data_array with
    | nil => exact absurd hd h
    | cons a t => rfl
  have m1 : ("\n" : String) ++ "```\n\n" = "\n```\n\n" := rfl
  have m2 : ("*Results:*\n" : String) ++ "```" = "*Results:*\n```" := rfl
  have m3 : ∀ x : String, "\n```\n\n" ++ ("*Results:*\n```" ++ x) =
      "\n```\n\n*Results:*\n```" ++ x := by
    intro x
    rw [← String.append_assoc]
    rfl
  have m4 : ∀ x : String, "\n```\n\n" ++ ("*Results:*\n```\n" ++ x) =
      "\n```\n\n*Results:*\n```\n" ++ x := by
    intro x
    rw [← String.append_assoc]
    rfl
  unfold format_query_result specRenderQueryResult
  by_cases hsql : truthyStr rd.sql <;>
    by_cases hcols : (rd.columns.map fun c => c.name.getD "").isEmpty <;>
      by_cases hlen : rd.data_array.length > 10 <;>
        simp [hne, hsql, hcols, hlen, String.append_assoc, String.empty_append,
          String.append_empty, m1, m2, m3, m4]

/-- Witness for amended C6 at a 15-row result: the rendering applies and,
in particular, carries the "... and 5 more rows" note. -/
theorem format_renders_spec_when_rows_nonempty_witness :
    format_query_result rd15 = specRenderQueryResult rd15 ∧
    strContains (format_query_result rd15) "... and 5 more rows" = true :=
  ⟨format_renders_spec_when_rows_nonempty rd15 (by decide), by decide⟩

end SlackGenie
